import Mathlib

/-!
Verification development for the session configuration resolver and
resource-lifecycle tracker of the `mcp-server-kubernetes` repository.

The definitions below are a shallow embedding of the TypeScript class
`KubernetesManager` (`src/utils/kubernetes-manager.ts`; the near-duplicate
variants in `src/unnamed/part_000` and the second half of
`src/tools/kubectl-operations.ts` agree on the parts embedded here except
where noted).  External effects — the Kubernetes client library's parsers
and loaders, remote delete calls, the filesystem write of the temporary
kubeconfig — are modelled as oracles (explicit function parameters), so
every claim is quantified over their behaviour.
-/

namespace MCPK8s

/-- The process environment consulted by the `KubernetesManager` constructor.
`inCluster` models `fs.existsSync("/var/run/secrets/kubernetes.io/serviceaccount/token")`
(`isRunningInCluster`); every other field is an environment variable
(`none` = unset). -/
structure Env where
  inCluster : Bool
  KUBECONFIG_YAML : Option String
  KUBECONFIG_JSON : Option String
  K8S_SERVER : Option String
  K8S_TOKEN : Option String
  K8S_SKIP_TLS_VERIFY : Option String
  KUBECONFIG_PATH : Option String
  K8S_CONTEXT : Option String
  KUBECONFIG : Option String
  K8S_NAMESPACE : Option String
  deriving DecidableEq

/-- JavaScript `s.trim()`: drop whitespace from both ends (an executable
model over the character list). -/
def jsTrim (s : String) : String :=
  ⟨((s.data.dropWhile Char.isWhitespace).reverse.dropWhile Char.isWhitespace).reverse⟩

/-- JavaScript truthiness of `v && v.trim()` for an environment variable:
set and non-empty after trimming whitespace. -/
def envSetTrimmed (v : Option String) : Bool :=
  match v with
  | some s => !(jsTrim s).isEmpty
  | none => false

/-- Source check `hasEnvKubeconfigYaml()`: `!!(process.env.KUBECONFIG_YAML && process.env.KUBECONFIG_YAML.trim())`. -/
def hasEnvKubeconfigYaml (env : Env) : Bool :=
  envSetTrimmed env.KUBECONFIG_YAML

/-- Source check `hasEnvKubeconfigJson()`. -/
def hasEnvKubeconfigJson (env : Env) : Bool :=
  envSetTrimmed env.KUBECONFIG_JSON

/-- Source check `hasEnvMinimalKubeconfig()`: both `K8S_SERVER` and `K8S_TOKEN` set and
non-empty after trimming. -/
def hasEnvMinimalKubeconfig (env : Env) : Bool :=
  envSetTrimmed env.K8S_SERVER && envSetTrimmed env.K8S_TOKEN

/-- Source check `hasEnvKubeconfigPath()`. -/
def hasEnvKubeconfigPath (env : Env) : Bool :=
  envSetTrimmed env.KUBECONFIG_PATH

/-- The six credential sources of the constructor's if/else chain, in the
order they appear in `src/utils/kubernetes-manager.ts`. -/
inductive ConfigSource where
  | inCluster
  | yaml
  | json
  | minimal
  | pathFile
  | defaultDiscovery
  deriving DecidableEq

/-- The presence check each source performs, straight from the constructor's
guards.  Default discovery is the unconditional `else` branch. -/
def sourceMatches (s : ConfigSource) (env : Env) : Bool :=
  match s with
  | .inCluster => env.inCluster
  | .yaml => hasEnvKubeconfigYaml env
  | .json => hasEnvKubeconfigJson env
  | .minimal => hasEnvMinimalKubeconfig env
  | .pathFile => hasEnvKubeconfigPath env
  | .defaultDiscovery => true

/-- The fixed priority order of the constructor's if/else chain. -/
def priorityOrder : List ConfigSource :=
  [.inCluster, .yaml, .json, .minimal, .pathFile, .defaultDiscovery]

/-- Which branch of the constructor's if/else chain runs, mirroring the
guard structure of `KubernetesManager`'s constructor. -/
def selectSource (env : Env) : ConfigSource :=
  if env.inCluster then .inCluster
  else if hasEnvKubeconfigYaml env then .yaml
  else if hasEnvKubeconfigJson env then .json
  else if hasEnvMinimalKubeconfig env then .minimal
  else if hasEnvKubeconfigPath env then .pathFile
  else .defaultDiscovery

/-- A cluster entry of a kubeconfig (the fields the embedded code touches). -/
structure Cluster where
  name : String
  server : String
  skipTLSVerify : Bool
  deriving DecidableEq

/-- A user entry of a kubeconfig. -/
structure User where
  name : String
  token : String
  deriving DecidableEq

/-- A context entry of a kubeconfig. -/
structure Context where
  name : String
  cluster : String
  user : String
  deriving DecidableEq

/-- The in-memory kubeconfig held by `this.kc`. -/
structure KubeConfig where
  clusters : List Cluster
  users : List User
  contexts : List Context
  currentContext : String
  deriving DecidableEq

/-- JavaScript truthiness of a string environment variable without
trimming (`if (!process.env.X)`): set and non-empty. -/
def jsTruthy (v : Option String) : Bool :=
  match v with
  | some s => !s.isEmpty
  | none => false

/-- Loader `loadEnvMinimalKubeconfig()`: guard `!K8S_SERVER || !K8S_TOKEN`, then
build the synthetic `env-cluster`/`env-user`/`env-context` triple, with
`skipTLSVerify` set exactly when `K8S_SKIP_TLS_VERIFY === "true"`. -/
def loadEnvMinimalKubeconfig (env : Env) : Except String KubeConfig :=
  if !jsTruthy env.K8S_SERVER || !jsTruthy env.K8S_TOKEN then
    .error "K8S_SERVER and K8S_TOKEN environment variables are required"
  else
    .ok
      { clusters := [{ name := "env-cluster"
                     , server := env.K8S_SERVER.getD ""
                     , skipTLSVerify := env.K8S_SKIP_TLS_VERIFY == some "true" }]
      , users := [{ name := "env-user", token := env.K8S_TOKEN.getD "" }]
      , contexts := [{ name := "env-context", cluster := "env-cluster", user := "env-user" }]
      , currentContext := "env-context" }

/-- Oracles for the external operations the constructor delegates to:
the client library's config loaders/parsers, the serializer
`exportConfig`, and the temp-file write inside
`createTempKubeconfigFromYaml` (returning the generated path). -/
structure Oracles where
  clusterKc : KubeConfig
  parseYaml : String → Except String KubeConfig
  parseJson : String → Except String KubeConfig
  loadFile : String → Except String KubeConfig
  defaultKc : KubeConfig
  exportConfig : KubeConfig → String
  writeTemp : String → Except String String

/-- Result of the source-selection half of the constructor: the loaded
kubeconfig and the final value of the process-wide `KUBECONFIG` binding. -/
structure LoadOut where
  kc : KubeConfig
  KUBECONFIG : Option String
  deriving DecidableEq

/-- What the constructor does once a given source is the chosen branch
(load, materialize a temp kubeconfig where the branch does so, wrap
errors with the branch's fatal message). -/
def loadForSource (o : Oracles) (env : Env) : ConfigSource → Except String LoadOut
  | .inCluster => .ok ⟨o.clusterKc, env.KUBECONFIG⟩
  | .yaml =>
    match o.parseYaml (env.KUBECONFIG_YAML.getD "") with
    | .error e => .error ("Failed to parse KUBECONFIG_YAML: " ++ e)
    | .ok kc =>
      match o.writeTemp (env.KUBECONFIG_YAML.getD "") with
      | .error e => .error ("Failed to parse KUBECONFIG_YAML: " ++ e)
      | .ok p => .ok ⟨kc, some p⟩
  | .json =>
    match o.parseJson (env.KUBECONFIG_JSON.getD "") with
    | .error e => .error ("Failed to parse KUBECONFIG_JSON: " ++ e)
    | .ok kc =>
      match o.writeTemp (o.exportConfig kc) with
      | .error e => .error ("Failed to parse KUBECONFIG_JSON: " ++ e)
      | .ok p => .ok ⟨kc, some p⟩
  | .minimal =>
    match loadEnvMinimalKubeconfig env with
    | .error e => .error ("Failed to create kubeconfig from K8S_SERVER and K8S_TOKEN: " ++ e)
    | .ok kc =>
      match o.writeTemp (o.exportConfig kc) with
      | .error e => .error ("Failed to create kubeconfig from K8S_SERVER and K8S_TOKEN: " ++ e)
      | .ok p => .ok ⟨kc, some p⟩
  | .pathFile =>
    match o.loadFile (env.KUBECONFIG_PATH.getD "") with
    | .error e => .error ("Failed to load kubeconfig from KUBECONFIG_PATH: " ++ e)
    | .ok kc => .ok ⟨kc, env.KUBECONFIG_PATH⟩
  | .defaultDiscovery => .ok ⟨o.defaultKc, env.KUBECONFIG⟩

/-- The source-selection half of the `KubernetesManager` constructor
(lines 31–93 of `src/utils/kubernetes-manager.ts`): the if/else chain over
the presence checks, each branch loading its own source. -/
def loadSource (o : Oracles) (env : Env) : Except String LoadOut :=
  if env.inCluster then
    loadForSource o env .inCluster
  else if hasEnvKubeconfigYaml env then
    loadForSource o env .yaml
  else if hasEnvKubeconfigJson env then
    loadForSource o env .json
  else if hasEnvMinimalKubeconfig env then
    loadForSource o env .minimal
  else if hasEnvKubeconfigPath env then
    loadForSource o env .pathFile
  else
    loadForSource o env .defaultDiscovery

/-- An API client derived from a kubeconfig (`kc.makeApiClient(...)`): it
records which API it is and the configuration it was derived from. -/
structure ApiClient where
  api : String
  config : KubeConfig
  deriving DecidableEq

/-- Client construction `this.kc.makeApiClient(k8s.XxxApi)`. -/
def makeApiClient (kc : KubeConfig) (api : String) : ApiClient :=
  ⟨api, kc⟩

/-- The manager's configuration-facing state: `this.kc` and the three
derived API clients. -/
structure Manager where
  kc : KubeConfig
  k8sApi : ApiClient
  k8sAppsApi : ApiClient
  k8sBatchApi : ApiClient
  deriving DecidableEq

/-- Method `setCurrentContext(contextName)`: reject a name absent from
`kc.getContexts()`, otherwise set the current context and re-create all
three API clients from the updated configuration. -/
def setCurrentContext (m : Manager) (contextName : String) : Except String Manager :=
  let contextNames := m.kc.contexts.map (fun c => c.name)
  if !(contextNames.contains contextName) then
    .error ("Context " ++ contextName ++ " not found. Available contexts: "
      ++ String.intercalate ", " contextNames)
  else
    let kc := { m.kc with currentContext := contextName }
    .ok { kc := kc
        , k8sApi := makeApiClient kc "CoreV1Api"
        , k8sAppsApi := makeApiClient kc "AppsV1Api"
        , k8sBatchApi := makeApiClient kc "BatchV1Api" }

/-- The constructor's context-override step (`if (process.env.K8S_CONTEXT) {
try { this.setCurrentContext(...) } catch { console.warn(...) } }`): a
failed switch is caught and turned into a warning, leaving the manager
unchanged.  Returns the resulting manager and the logged warnings. -/
def applyContextOverride (k8sContextVar : Option String) (m : Manager) :
    Manager × List String :=
  match k8sContextVar with
  | none => (m, [])
  | some ctx =>
    if ctx.isEmpty then (m, [])
    else
      match setCurrentContext m ctx with
      | .ok m2 => (m2, [])
      | .error e => (m, ["Warning: Could not set context to " ++ ctx ++ ": " ++ e])

/-- A tracked resource (`ResourceTracker` in `types.ts`, fields as used by
the manager: kind/name/namespace plus the `createdAt` timestamp). -/
structure TrackedResource where
  kind : String
  name : String
  ns : String
  createdAt : Nat
  deriving DecidableEq

/-- A tracked port-forward (`PortForwardTracker`), looked up and removed by
its `id`. -/
structure PortForwardTracker where
  id : String
  deriving DecidableEq

/-- A tracked watch (`WatchTracker`); `wid` identifies its abort handle
(`watch.abort`). -/
structure WatchTracker where
  wid : String
  deriving DecidableEq

/-- The manager's three registries. -/
structure Registries where
  resources : List TrackedResource
  portForwards : List PortForwardTracker
  watches : List WatchTracker
  deriving DecidableEq

/-- The external delete call `deleteResource` dispatches to, one
constructor per `case` of its `switch (kind.toLowerCase())`. -/
inductive ApiDelete where
  | pod (name ns : String)
  | deployment (name ns : String)
  | service (name ns : String)
  | cronjob (name ns : String)
  deriving DecidableEq

/-- Model of `kind.toLowerCase()`: ASCII case folding, character by character
(an executable model of the JavaScript call). -/
def jsToLowerCase (s : String) : String :=
  ⟨s.data.map Char.toLower⟩

/-- The `switch (kind.toLowerCase())` of `deleteResource`: which external
delete call, if any, a given kind dispatches to. -/
def dispatchDelete (kind name ns : String) : Option ApiDelete :=
  let k := jsToLowerCase kind
  if k == "pod" then some (.pod name ns)
  else if k == "deployment" then some (.deployment name ns)
  else if k == "service" then some (.service name ns)
  else if k == "cronjob" then some (.cronjob name ns)
  else none

/-- The predicate of `deleteResource`'s filter:
`r.kind === kind && r.name === name && r.namespace === namespace`
(exact, case-sensitive string equality). -/
def matchesResource (kind name ns : String) (r : TrackedResource) : Bool :=
  r.kind == kind && r.name == name && r.ns == ns

/-- Method `deleteResource(kind, name, namespace)`.  `outcome` is the oracle for
the external delete calls.  Returns the calls issued, the overall result
(an uncaught rejection propagates), and the tracked-resource list
afterwards.  Note the filter runs *after* the `await`: when the external
call throws, the filter statement is never reached and the list is
unchanged. -/
def deleteResource (outcome : ApiDelete → Except String Unit)
    (resources : List TrackedResource) (kind name ns : String) :
    List ApiDelete × Except String Unit × List TrackedResource :=
  match dispatchDelete kind name ns with
  | some c =>
    match outcome c with
    | .error e => ([c], .error e, resources)
    | .ok _ => ([c], .ok (),
        resources.filter (fun r => !(matchesResource kind name ns r)))
  | none => ([], .ok (),
      resources.filter (fun r => !(matchesResource kind name ns r)))

/-- One log line of `cleanup`'s catch block:
`Failed to delete ${resource.kind} ${resource.name}: ${error}`. -/
def cleanupLogMsg (r : TrackedResource) (e : String) : String :=
  "Failed to delete " ++ r.kind ++ " " ++ r.name ++ ": " ++ e

/-- The resource loop of `cleanup`: iterate over the snapshot
`[...this.resources].reverse()` (first argument) while `this.resources`
(second argument) mutates underneath; each failed `deleteResource` is
caught, logged, and iteration continues.  Returns the calls issued in
order, the log lines, and the final live resource list. -/
def cleanupLoop (outcome : ApiDelete → Except String Unit) :
    List TrackedResource → List TrackedResource →
    List ApiDelete × List String × List TrackedResource
  | [], live => ([], [], live)
  | r :: rest, live =>
    let step := deleteResource outcome live r.kind r.name r.ns
    let next := cleanupLoop outcome rest step.2.2
    match step.2.1 with
    | .ok _ => (step.1 ++ next.1, next.2.1, next.2.2)
    | .error e => (step.1 ++ next.1, cleanupLogMsg r e :: next.2.1, next.2.2)

/-- A trace of `cleanup`'s side effects: the watch handles aborted, the
external delete calls in issue order, and the error log lines. -/
structure CleanupTrace where
  abortedWatches : List String
  deleteCalls : List ApiDelete
  loggedErrors : List String
  deriving DecidableEq

/-- Method `cleanup()`: abort every tracked watch, then delete tracked resources
in reverse insertion order, logging and continuing past individual
failures.  Neither the watch list nor the port-forward list is modified. -/
def cleanup (outcome : ApiDelete → Except String Unit) (st : Registries) :
    CleanupTrace × Registries :=
  let aborted := st.watches.map (fun w => w.wid)
  let res := cleanupLoop outcome st.resources.reverse st.resources
  (⟨aborted, res.1, res.2.1⟩, { st with resources := res.2.2 })

/-- Method `trackResource(kind, name, namespace)`. -/
def trackResource (st : Registries) (kind name ns : String) (now : Nat) : Registries :=
  { st with resources := st.resources ++ [⟨kind, name, ns, now⟩] }

/-- Method `getPortForward(id)`: `this.portForwards.find((p) => p.id === id)` —
an explicit `Option`, total, never throws. -/
def getPortForward (pfs : List PortForwardTracker) (id : String) :
    Option PortForwardTracker :=
  pfs.find? (fun p => p.id == id)

/-- Method `removePortForward(id)`: `this.portForwards.filter((p) => p.id !== id)`. -/
def removePortForward (pfs : List PortForwardTracker) (id : String) :
    List PortForwardTracker :=
  pfs.filter (fun p => p.id != id)

/-- Process-wide state relevant to `createTempKubeconfigFromYaml`: the live
temporary files (newest first), the `KUBECONFIG` binding, and the handler
registrations accumulated on the process object.  Each element of a handler
list is the temp-file path the corresponding registered closure cleans up;
`exitHandlers` are `process.on("exit", ...)` registrations, `sigHandlers`
the SIGINT/SIGTERM registrations (whose closures also call
`process.exit(0)`), `usrHandlers` the SIGUSR1/SIGUSR2 ones. -/
structure TempStore where
  files : List String
  KUBECONFIG : Option String
  exitHandlers : List String
  sigHandlers : List String
  usrHandlers : List String
  deriving DecidableEq

/-- Closure `cleanupTempFile` for a given path: `if (fs.existsSync(p)) fs.unlinkSync(p)`,
errors (e.g. the file already being gone) swallowed. -/
def cleanupTempFile (files : List String) (p : String) : List String :=
  if files.contains p then files.filter (fun q => q != p) else files

/-- Method `createTempKubeconfigFromYaml` with a successful write: create a fresh
file at path `p`, point `KUBECONFIG` at it, and register cleanup handlers
for it against `exit`, SIGINT/SIGTERM, and SIGUSR1/SIGUSR2.  Handlers from
earlier calls stay registered (Node's `process.on` appends). -/
def materialize (st : TempStore) (p : String) : TempStore :=
  { files := p :: st.files
  , KUBECONFIG := some p
  , exitHandlers := st.exitHandlers ++ [p]
  , sigHandlers := st.sigHandlers ++ [p]
  , usrHandlers := st.usrHandlers ++ [p] }

/-- Normal process exit: every `process.on("exit", ...)` handler runs in
registration order. -/
def runExitHandlers (st : TempStore) : List String :=
  st.exitHandlers.foldl cleanupTempFile st.files

/-- Delivery of SIGINT/SIGTERM when at least one handler is registered: the
first registered handler runs, cleans its file and calls
`process.exit(0)`, which fires all `exit` handlers and terminates the
process (later signal handlers never run).  Returns the files left on disk
after the process has exited. -/
def deliverTermSignal (st : TempStore) : List String :=
  match st.sigHandlers with
  | [] => st.files
  | p :: _ => st.exitHandlers.foldl cleanupTempFile (cleanupTempFile st.files p)

/-- Delivery of SIGUSR1/SIGUSR2: every registered handler runs in order and
the process keeps running. -/
def deliverUsrSignal (st : TempStore) : TempStore :=
  { st with files := st.usrHandlers.foldl cleanupTempFile st.files }

/-- The empty initial process state. -/
def TempStore.initial : TempStore :=
  ⟨[], none, [], [], []⟩

/-- The external delete call a tracked resource dispatches to. -/
def dispatchOf (r : TrackedResource) : Option ApiDelete :=
  dispatchDelete r.kind r.name r.ns

/-- The log line `cleanup` produces for a tracked resource under a given
delete-call oracle: present exactly when its external delete call fails. -/
def logOf (outcome : ApiDelete → Except String Unit) (r : TrackedResource) :
    Option String :=
  match dispatchOf r with
  | some c =>
    match outcome c with
    | .error e => some (cleanupLogMsg r e)
    | .ok _ => none
  | none => none

lemma cleanupLoop_calls (outcome : ApiDelete → Except String Unit)
    (s : List TrackedResource) :
    ∀ live, (cleanupLoop outcome s live).1 = s.filterMap dispatchOf := by
  induction s with
  | nil => intro live; simp [cleanupLoop]
  | cons r rest ih =>
    intro live
    cases hd : dispatchDelete r.kind r.name r.ns with
    | none =>
      simp [cleanupLoop, deleteResource, hd, List.filterMap_cons, dispatchOf, ih]
    | some c =>
      cases ho : outcome c with
      | ok u =>
        simp [cleanupLoop, deleteResource, hd, ho, List.filterMap_cons, dispatchOf, ih]
      | error e =>
        simp [cleanupLoop, deleteResource, hd, ho, List.filterMap_cons, dispatchOf, ih]

lemma cleanupLoop_logs (outcome : ApiDelete → Except String Unit)
    (s : List TrackedResource) :
    ∀ live, (cleanupLoop outcome s live).2.1 = s.filterMap (logOf outcome) := by
  induction s with
  | nil => intro live; simp [cleanupLoop]
  | cons r rest ih =>
    intro live
    cases hd : dispatchDelete r.kind r.name r.ns with
    | none =>
      simp [cleanupLoop, deleteResource, hd, List.filterMap_cons, logOf, dispatchOf, ih]
    | some c =>
      cases ho : outcome c with
      | ok u =>
        simp [cleanupLoop, deleteResource, hd, ho, List.filterMap_cons, logOf, dispatchOf, ih]
      | error e =>
        simp [cleanupLoop, deleteResource, hd, ho, List.filterMap_cons, logOf, dispatchOf, ih]

/-- C2 theorem: for every delete-call oracle and every registry state, the
sequence of external delete calls issued by `cleanup` is exactly the
tracked resources in reverse insertion order (each mapped through the
kind dispatch), and the logged errors are exactly the failures of that
same sequence — an individual failure never cuts the pass short. -/
theorem cleanup_reverse_order_continues (outcome : ApiDelete → Except String Unit)
    (st : Registries) :
    (cleanup outcome st).1.deleteCalls = st.resources.reverse.filterMap dispatchOf ∧
    (cleanup outcome st).1.loggedErrors = st.resources.reverse.filterMap (logOf outcome) := by
  unfold cleanup
  exact ⟨cleanupLoop_calls outcome st.resources.reverse st.resources,
         cleanupLoop_logs outcome st.resources.reverse st.resources⟩

/-- C3 counterexample: one tracked pod, and an external delete that
rejects.  `deleteResource` propagates the rejection and the tracked entry
is NOT removed (the filter statement sits after the failing `await`), so
removal does not happen "regardless of whether the external delete
operation succeeds or fails". -/
theorem deleteResource_removes_despite_failure_false :
    (deleteResource (fun _ => .error "boom")
        [⟨"pod", "p", "default", 0⟩] "pod" "p" "default").2.2
      = [⟨"pod", "p", "default", 0⟩] ∧
    (deleteResource (fun _ => .error "boom")
        [⟨"pod", "p", "default", 0⟩] "pod" "p" "default").2.1
      = .error "boom" := by
  constructor <;> rfl

/-- C3 amended: `deleteResource` dispatches the external delete call for
its kind; it removes the matching tracked entries exactly when the call
succeeds (or no call is dispatched); when the external call fails, the
error propagates and the tracked list is left unchanged. -/
theorem deleteResource_removal_iff_success (outcome : ApiDelete → Except String Unit)
    (rs : List TrackedResource) (kind name ns : String) :
    (deleteResource outcome rs kind name ns).1 = (dispatchDelete kind name ns).toList ∧
    ((deleteResource outcome rs kind name ns).2.1 = .ok () →
      (deleteResource outcome rs kind name ns).2.2
        = rs.filter (fun r => !(matchesResource kind name ns r))) ∧
    (∀ e, (deleteResource outcome rs kind name ns).2.1 = .error e →
      (deleteResource outcome rs kind name ns).2.2 = rs ∧
      ∃ c, dispatchDelete kind name ns = some c ∧ outcome c = .error e) := by
  unfold deleteResource
  cases hd : dispatchDelete kind name ns with
  | none => simp
  | some c =>
    cases ho : outcome c with
    | ok u => simp [ho]
    | error e => simp [ho]

/-- C3 amended, witness: with a succeeding delete, the matching pod entry
is removed and the other entry survives. -/
theorem deleteResource_removal_iff_success_witness :
    (deleteResource (fun _ => .ok ())
        [⟨"pod", "p", "default", 0⟩, ⟨"service", "s", "default", 1⟩]
        "pod" "p" "default").2.2
      = [⟨"service", "s", "default", 1⟩] := by
  have h := (deleteResource_removal_iff_success (fun _ => .ok ())
    [⟨"pod", "p", "default", 0⟩, ⟨"service", "s", "default", 1⟩]
    "pod" "p" "default").2.1 (by rfl)
  rw [h]
  rfl

/-- C10 theorem: for a kind that matches none of "pod", "deployment",
"service", "cronjob" case-insensitively, `deleteResource` issues no
external delete call at all, succeeds, and still filters out every tracked
entry whose kind/name/namespace are exactly (case-sensitively) equal to
the arguments. -/
theorem delete_unrecognized_kind_untracks (outcome : ApiDelete → Except String Unit)
    (rs : List TrackedResource) (kind name ns : String)
    (h : (jsToLowerCase kind == "pod" || jsToLowerCase kind == "deployment" ||
          jsToLowerCase kind == "service" || jsToLowerCase kind == "cronjob") = false) :
    deleteResource outcome rs kind name ns
      = ([], .ok (),
         rs.filter (fun r => !(r.kind == kind && r.name == name && r.ns == ns))) := by
  have hd : dispatchDelete kind name ns = none := by
    simp only [Bool.or_eq_false_iff] at h
    obtain ⟨⟨⟨h1, h2⟩, h3⟩, h4⟩ := h
    unfold dispatchDelete
    simp [h1, h2, h3, h4]
  unfold deleteResource
  rw [hd]
  simp [matchesResource]

/-- C10 witness: deleting kind "Secret" (unrecognized) issues no call and
does not remove a tracked entry of kind "secret" — the removal match is
case-sensitive even though the dispatch is case-insensitive. -/
theorem delete_unrecognized_kind_untracks_witness :
    ((jsToLowerCase "Secret" == "pod" || jsToLowerCase "Secret" == "deployment" ||
      jsToLowerCase "Secret" == "service" || jsToLowerCase "Secret" == "cronjob") = false) ∧
    deleteResource (fun _ => .ok ()) [⟨"secret", "n", "d", 0⟩] "Secret" "n" "d"
      = ([], .ok (), [⟨"secret", "n", "d", 0⟩]) := by
  refine ⟨by decide, ?_⟩
  rw [delete_unrecognized_kind_untracks (fun _ => .ok ())
    [⟨"secret", "n", "d", 0⟩] "Secret" "n" "d" (by decide)]
  rfl

/-- C9 theorem: for an id that no tracked port-forward carries,
`getPortForward` returns the explicit not-found result `none` (it is a
total function — it cannot throw), and `removePortForward` returns the
registry unchanged. -/
theorem portforward_missing_id_safe (pfs : List PortForwardTracker) (id : String)
    (h : ∀ p ∈ pfs, p.id ≠ id) :
    getPortForward pfs id = none ∧ removePortForward pfs id = pfs := by
  constructor
  · apply List.find?_eq_none.mpr
    intro p hp
    simp [h p hp]
  · apply List.filter_eq_self.mpr
    intro p hp
    simp [h p hp]

/-- C9 witness: a registry holding only "pf-a", queried for "pf-b". -/
theorem portforward_missing_id_safe_witness :
    getPortForward [⟨"pf-a"⟩] "pf-b" = none ∧
    removePortForward [⟨"pf-a"⟩] "pf-b" = [⟨"pf-a"⟩] :=
  portforward_missing_id_safe [⟨"pf-a"⟩] "pf-b" (by decide)

lemma cleanupLoop_live_allok (s : List TrackedResource) :
    ∀ live, (cleanupLoop (fun _ => .ok ()) s live).2.2 =
      live.filter (fun r => s.all (fun q => !(matchesResource q.kind q.name q.ns r))) := by
  induction s with
  | nil => intro live; simp [cleanupLoop]
  | cons q rest ih =>
    intro live
    have step : (cleanupLoop (fun _ => .ok ()) (q :: rest) live).2.2
        = (cleanupLoop (fun _ => .ok ()) rest
            (live.filter (fun r => !(matchesResource q.kind q.name q.ns r)))).2.2 := by
      cases hd : dispatchDelete q.kind q.name q.ns with
      | none => simp [cleanupLoop, deleteResource, hd]
      | some c => simp [cleanupLoop, deleteResource, hd]
    rw [step, ih, List.filter_filter]
    apply List.filter_congr
    intro r _
    simp [List.all_cons, Bool.and_comm]

/-- C6 counterexample: a registry with one tracked port-forward and one
tracked watch.  After `cleanup` (with every external delete succeeding),
the port-forward entry is still in its registry and the watch entry is
still in its registry (only aborted) — so cleanup does not drain all three
registries. -/
theorem cleanup_drains_all_registries_false :
    (cleanup (fun _ => .ok ()) ⟨[], [⟨"pf-1"⟩], [⟨"w-1"⟩]⟩).2.portForwards
      = [⟨"pf-1"⟩] ∧
    (cleanup (fun _ => .ok ()) ⟨[], [⟨"pf-1"⟩], [⟨"w-1"⟩]⟩).2.watches
      = [⟨"w-1"⟩] := by
  constructor <;> rfl

/-- C6 amended: `cleanup` leaves the port-forward registry untouched and
the watch registry's entries in place, while aborting every tracked
watch; the tracked-resource registry is drained only as far as deletions
succeed — when every external delete succeeds it ends empty. -/
theorem cleanup_registry_effects (outcome : ApiDelete → Except String Unit)
    (st : Registries) :
    (cleanup outcome st).2.portForwards = st.portForwards ∧
    (cleanup outcome st).2.watches = st.watches ∧
    (cleanup outcome st).1.abortedWatches = st.watches.map (fun w => w.wid) ∧
    (cleanup (fun _ => .ok ()) st).2.resources = [] := by
  refine ⟨rfl, rfl, rfl, ?_⟩
  show (cleanupLoop (fun _ => .ok ()) st.resources.reverse st.resources).2.2 = []
  rw [cleanupLoop_live_allok]
  apply List.filter_eq_nil_iff.mpr
  intro r hr
  simp only [List.all_eq_true, Bool.not_eq_true]
  intro hall
  have hmem : r ∈ st.resources.reverse := List.mem_reverse.mpr hr
  have := hall r hmem
  simp [matchesResource] at this

/-- C1 theorem: for every oracle behaviour and every environment state,
the source the constructor runs is exactly the first source of the fixed
priority list whose presence check matches (so no lower-priority source is
ever loaded, whatever else is set), the constructor's load step is exactly
that source's load step, and in particular the presence of the in-cluster
credential file forces the in-cluster source. -/
theorem resolver_priority_first_match (o : Oracles) (env : Env) :
    priorityOrder.find? (fun s => sourceMatches s env) = some (selectSource env) ∧
    loadSource o env = loadForSource o env (selectSource env) ∧
    (env.inCluster = true → selectSource env = ConfigSource.inCluster) := by
  cases h1 : env.inCluster with
  | true => simp [priorityOrder, selectSource, loadSource, sourceMatches, List.find?, h1]
  | false =>
    cases h2 : hasEnvKubeconfigYaml env with
    | true => simp [priorityOrder, selectSource, loadSource, sourceMatches, List.find?, h1, h2]
    | false =>
      cases h3 : hasEnvKubeconfigJson env with
      | true =>
        simp [priorityOrder, selectSource, loadSource, sourceMatches, List.find?, h1, h2, h3]
      | false =>
        cases h4 : hasEnvMinimalKubeconfig env with
        | true =>
          simp [priorityOrder, selectSource, loadSource, sourceMatches, List.find?,
            h1, h2, h3, h4]
        | false =>
          cases h5 : hasEnvKubeconfigPath env with
          | true =>
            simp [priorityOrder, selectSource, loadSource, sourceMatches, List.find?,
              h1, h2, h3, h4, h5]
          | false =>
            simp [priorityOrder, selectSource, loadSource, sourceMatches, List.find?,
              h1, h2, h3, h4, h5]

/-- An empty kubeconfig, for concrete instantiations. -/
def kcEmpty : KubeConfig :=
  ⟨[], [], [], ""⟩

/-- A concrete oracle assignment in which every external operation
succeeds. -/
def oraclesOk : Oracles :=
  ⟨kcEmpty, fun _ => .ok kcEmpty, fun _ => .ok kcEmpty, fun _ => .ok kcEmpty,
   kcEmpty, fun _ => "", fun _ => .ok "/tmp/kubeconfig-demo"⟩

/-- An environment in which the in-cluster credential file is present AND
every lower-priority source's variables are set. -/
def envAllSet : Env :=
  ⟨true, some "yaml-blob", some "json-blob", some "https://example:6443",
   some "tok", some "true", some "/home/u/.kube/config", some "ctx", none, none⟩

/-- C1 witness: with the in-cluster file present and every lower-priority
variable also set, the in-cluster source is selected and loaded. -/
theorem resolver_priority_first_match_witness :
    selectSource envAllSet = ConfigSource.inCluster ∧
    priorityOrder.find? (fun s => sourceMatches s envAllSet)
      = some ConfigSource.inCluster ∧
    loadSource oraclesOk envAllSet = loadForSource oraclesOk envAllSet ConfigSource.inCluster := by
  have h := resolver_priority_first_match oraclesOk envAllSet
  have hsel : selectSource envAllSet = ConfigSource.inCluster := h.2.2 rfl
  refine ⟨hsel, ?_, ?_⟩
  · rw [h.1, hsel]
  · rw [h.2.1, hsel]

/-- A concrete oracle assignment whose YAML and JSON parsers reject every
input. -/
def oraclesParseFail : Oracles :=
  ⟨kcEmpty, fun _ => .error "bad yaml", fun _ => .error "bad json",
   fun _ => .ok kcEmpty, kcEmpty, fun _ => "", fun _ => .ok "/tmp/kubeconfig-w"⟩

/-- An environment matching the YAML source (with lower-priority sources
also set). -/
def envYamlSet : Env :=
  ⟨false, some "not: [valid", none, some "https://example:6443", some "tok",
   none, some "/home/u/.kube/config", none, none, none⟩

/-- An environment matching the JSON source (with lower-priority sources
also set). -/
def envJsonSet : Env :=
  ⟨false, none, some "\x7boops", some "https://example:6443", some "tok",
   none, some "/home/u/.kube/config", none, none, none⟩

/-- C4 theorem: when the YAML text-blob source matches but its content
fails to parse, resolution fails with the wrapped fatal error naming
`KUBECONFIG_YAML`; when the YAML source does not match, the JSON source
matches, and its content fails to parse, resolution fails with the
wrapped fatal error naming `KUBECONFIG_JSON`.  In both cases the result
is an error, so no lower-priority source is loaded. -/
theorem matched_invalid_source_fatal (o : Oracles) (env1 env2 : Env) (m1 m2 : String)
    (h1 : env1.inCluster = false) (h2 : hasEnvKubeconfigYaml env1 = true)
    (h3 : o.parseYaml (env1.KUBECONFIG_YAML.getD "") = .error m1)
    (h4 : env2.inCluster = false) (h5 : hasEnvKubeconfigYaml env2 = false)
    (h6 : hasEnvKubeconfigJson env2 = true)
    (h7 : o.parseJson (env2.KUBECONFIG_JSON.getD "") = .error m2) :
    loadSource o env1 = .error ("Failed to parse KUBECONFIG_YAML: " ++ m1) ∧
    loadSource o env2 = .error ("Failed to parse KUBECONFIG_JSON: " ++ m2) := by
  constructor
  · unfold loadSource loadForSource
    simp [h1, h2, h3]
  · unfold loadSource loadForSource
    simp [h4, h5, h6, h7]

/-- C4 witness: a failing YAML parse and a failing JSON parse, on
environments where the respective source matches. -/
theorem matched_invalid_source_fatal_witness :
    loadSource oraclesParseFail envYamlSet
      = .error "Failed to parse KUBECONFIG_YAML: bad yaml" ∧
    loadSource oraclesParseFail envJsonSet
      = .error "Failed to parse KUBECONFIG_JSON: bad json" :=
  matched_invalid_source_fatal oraclesParseFail envYamlSet envJsonSet
    "bad yaml" "bad json" rfl (by decide) rfl rfl (by decide) (by decide) rfl

/-- C5 theorem: a context override naming a context absent from the loaded
configuration leaves the manager (and hence the active context) unchanged
and logs exactly one warning, never failing; an override naming an
existing context switches the current context and re-creates all three
API clients from the updated configuration. -/
theorem context_override_semantics (m : Manager) (bad good : String)
    (hbadMem : (m.kc.contexts.map (fun c => c.name)).contains bad = false)
    (hbadNe : bad.isEmpty = false)
    (hgoodMem : (m.kc.contexts.map (fun c => c.name)).contains good = true)
    (hgoodNe : good.isEmpty = false) :
    (applyContextOverride (some bad) m).1 = m ∧
    (applyContextOverride (some bad) m).2.length = 1 ∧
    applyContextOverride (some good) m =
      ({ kc := { m.kc with currentContext := good }
       , k8sApi := makeApiClient { m.kc with currentContext := good } "CoreV1Api"
       , k8sAppsApi := makeApiClient { m.kc with currentContext := good } "AppsV1Api"
       , k8sBatchApi := makeApiClient { m.kc with currentContext := good } "BatchV1Api" }, []) := by
  simp only [applyContextOverride, setCurrentContext]
  rw [hbadNe, hgoodNe, hbadMem, hgoodMem]
  simp

/-- A concrete kubeconfig with a single context "ctx-a". -/
def kcDemo : KubeConfig :=
  ⟨[⟨"c1", "https://example:6443", false⟩], [⟨"u1", "tok"⟩],
   [⟨"ctx-a", "c1", "u1"⟩], "ctx-a"⟩

/-- A concrete manager built over `kcDemo`. -/
def mDemo : Manager :=
  ⟨kcDemo, makeApiClient kcDemo "CoreV1Api", makeApiClient kcDemo "AppsV1Api",
   makeApiClient kcDemo "BatchV1Api"⟩

/-- C5 witness: overriding to the missing "ctx-b" leaves `mDemo` unchanged
with one warning; overriding to the existing "ctx-a" succeeds. -/
theorem context_override_semantics_witness :
    (applyContextOverride (some "ctx-b") mDemo).1 = mDemo ∧
    (applyContextOverride (some "ctx-b") mDemo).2.length = 1 ∧
    (applyContextOverride (some "ctx-a") mDemo).1.kc.currentContext = "ctx-a" := by
  have h := context_override_semantics mDemo "ctx-b" "ctx-a"
    (by decide) (by decide) (by decide) (by decide)
  exact ⟨h.1, h.2.1, by rw [h.2.2]⟩

lemma envSetTrimmed_jsTruthy (v : Option String) (h : envSetTrimmed v = true) :
    jsTruthy v = true := by
  cases v with
  | none => simp [envSetTrimmed] at h
  | some s =>
    simp only [envSetTrimmed, Bool.not_eq_true'] at h
    cases he : s.isEmpty with
    | false => simp [jsTruthy, he]
    | true =>
      have hs : s = "" := (String.isEmpty_iff s).mp he
      subst hs
      exact absurd h (by decide)

/-- C8 theorem: whenever the minimal-pair source's presence check holds
(server and token both non-empty after trimming), `loadEnvMinimalKubeconfig`
builds exactly one synthetic cluster "env-cluster" with the given server,
one user "env-user" with the given token, one context "env-context"
joining them, sets it as the current context, and sets `skipTLSVerify`
exactly when `K8S_SKIP_TLS_VERIFY` is the literal string "true". -/
theorem minimal_pair_synthetic_config (env : Env)
    (h : hasEnvMinimalKubeconfig env = true) :
    loadEnvMinimalKubeconfig env = .ok
      { clusters := [{ name := "env-cluster"
                     , server := env.K8S_SERVER.getD ""
                     , skipTLSVerify := env.K8S_SKIP_TLS_VERIFY == some "true" }]
      , users := [{ name := "env-user", token := env.K8S_TOKEN.getD "" }]
      , contexts := [{ name := "env-context", cluster := "env-cluster", user := "env-user" }]
      , currentContext := "env-context" } ∧
    ((env.K8S_SKIP_TLS_VERIFY == some "true") = true ↔
      env.K8S_SKIP_TLS_VERIFY = some "true") := by
  simp only [hasEnvMinimalKubeconfig, Bool.and_eq_true] at h
  have hs := envSetTrimmed_jsTruthy env.K8S_SERVER h.1
  have ht := envSetTrimmed_jsTruthy env.K8S_TOKEN h.2
  constructor
  · unfold loadEnvMinimalKubeconfig
    simp [hs, ht]
  · exact beq_iff_eq

/-- An environment carrying only the minimal pair (skip-TLS unset). -/
def envMinimalPair : Env :=
  ⟨false, none, none, some "https://example:6443", some "tok", none, none,
   none, none, none⟩

/-- C8 witness: the minimal pair alone produces the synthetic
cluster/user/context triple with TLS verification enforced. -/
theorem minimal_pair_synthetic_config_witness :
    loadEnvMinimalKubeconfig envMinimalPair = .ok
      ⟨[⟨"env-cluster", "https://example:6443", false⟩], [⟨"env-user", "tok"⟩],
       [⟨"env-context", "env-cluster", "env-user"⟩], "env-context"⟩ := by
  have h := (minimal_pair_synthetic_config envMinimalPair (by decide)).1
  rw [h]
  rfl

lemma cleanupTempFile_subset (f : List String) (p q : String)
    (h : q ∈ cleanupTempFile f p) : q ∈ f := by
  unfold cleanupTempFile at h
  split at h
  · exact List.mem_of_mem_filter h
  · exact h

lemma cleanupTempFile_not_mem_self (f : List String) (p : String) :
    p ∉ cleanupTempFile f p := by
  unfold cleanupTempFile
  split
  · intro h
    have := List.of_mem_filter h
    simp at this
  · next hc =>
    intro h
    exact hc (List.elem_iff.mpr h)

lemma cleanupTempFile_not_mem (f : List String) (p : String) (h : p ∉ f) :
    cleanupTempFile f p = f := by
  unfold cleanupTempFile
  rw [if_neg]
  intro hc
  exact h (List.elem_iff.mp hc)

lemma foldl_cleanup_not_mem (hs : List String) :
    ∀ f p, p ∉ f → p ∉ hs.foldl cleanupTempFile f := by
  induction hs with
  | nil => intro f p h; exact h
  | cons q rest ih =>
    intro f p h
    exact ih (cleanupTempFile f q) p (fun hm => h (cleanupTempFile_subset f q p hm))

lemma mem_not_mem_foldl (hs : List String) :
    ∀ f p, p ∈ hs → p ∉ hs.foldl cleanupTempFile f := by
  induction hs with
  | nil => intro f p h; cases h
  | cons q rest ih =>
    intro f p h
    rcases List.mem_cons.mp h with h1 | h2
    · subst h1
      exact foldl_cleanup_not_mem rest (cleanupTempFile f p) p
        (cleanupTempFile_not_mem_self f p)
    · exact ih (cleanupTempFile f q) p h2

lemma foldl_cleanup_subset (hs : List String) :
    ∀ f q, q ∈ hs.foldl cleanupTempFile f → q ∈ f := by
  induction hs with
  | nil => intro f q h; exact h
  | cons r rest ih =>
    intro f q h
    exact cleanupTempFile_subset f r q (ih (cleanupTempFile f r) q h)

lemma foldl_cleanup_noop (hs : List String) :
    ∀ f, (∀ q ∈ hs, q ∉ f) → hs.foldl cleanupTempFile f = f := by
  induction hs with
  | nil => intro f _; rfl
  | cons r rest ih =>
    intro f h
    have hr : r ∉ f := h r (List.mem_cons_self r rest)
    rw [List.foldl_cons, cleanupTempFile_not_mem f r hr]
    exact ih f (fun q hq => h q (List.mem_cons_of_mem r hq))

lemma foldl_cleanup_eq_nil (hs f : List String) (h : ∀ q ∈ f, q ∈ hs) :
    hs.foldl cleanupTempFile f = [] := by
  apply List.eq_nil_iff_forall_not_mem.mpr
  intro q hq
  exact mem_not_mem_foldl hs f q (h q (foldl_cleanup_subset hs f q hq))
    hq

/-- C7 counterexample: two `materialize` calls from a fresh process state.
Afterwards two ephemeral files are live at once — the earlier one stays on
disk (only the newer is referenced by `KUBECONFIG`) — contradicting
"at any time, exactly one live ephemeral credential file". -/
theorem materialize_twice_single_live_file_false :
    (materialize (materialize TempStore.initial "/tmp/kubeconfig-1") "/tmp/kubeconfig-2").files.length = 2 ∧
    (materialize (materialize TempStore.initial "/tmp/kubeconfig-1") "/tmp/kubeconfig-2").KUBECONFIG
      = some "/tmp/kubeconfig-2" ∧
    "/tmp/kubeconfig-1" ∈
      (materialize (materialize TempStore.initial "/tmp/kubeconfig-1") "/tmp/kubeconfig-2").files := by
  refine ⟨rfl, rfl, ?_⟩
  decide

/-- C7 amended: after two `materialize` calls the binding references
exactly the newest file, both files stay live until process
exit; a termination signal removes every materialized file before the
process exits; per-file cleanup is idempotent and a no-op once the file
is gone, so however many handler registrations accumulate, each file is
deleted at most once (a repeated signal delivery changes nothing). -/
theorem materialize_lifecycle (st : TempStore) (p1 p2 p : String)
    (f g : List String) (hgone : p ∉ f) :
    (materialize (materialize TempStore.initial p1) p2).KUBECONFIG = some p2 ∧
    (materialize (materialize TempStore.initial p1) p2).files = [p2, p1] ∧
    deliverTermSignal (materialize (materialize TempStore.initial p1) p2) = [] ∧
    cleanupTempFile (cleanupTempFile g p) p = cleanupTempFile g p ∧
    cleanupTempFile f p = f ∧
    deliverUsrSignal (deliverUsrSignal st) = deliverUsrSignal st := by
  refine ⟨rfl, rfl, ?_, ?_, cleanupTempFile_not_mem f p hgone, ?_⟩
  · show List.foldl cleanupTempFile
      (cleanupTempFile [p2, p1] p1) [p1, p2] = []
    apply foldl_cleanup_eq_nil
    intro q hq
    have hq2 : q ∈ [p2, p1] := cleanupTempFile_subset [p2, p1] p1 q hq
    rcases List.mem_cons.mp hq2 with h1 | h2
    · subst h1; simp
    · simp at h2
      subst h2; simp
  · exact cleanupTempFile_not_mem (cleanupTempFile g p) p
      (cleanupTempFile_not_mem_self g p)
  · show ({ st with files := (List.foldl cleanupTempFile
        (List.foldl cleanupTempFile st.files st.usrHandlers) st.usrHandlers) } : TempStore)
      = { st with files := (List.foldl cleanupTempFile st.files st.usrHandlers) }
    rw [foldl_cleanup_noop st.usrHandlers
      (List.foldl cleanupTempFile st.files st.usrHandlers)
      (fun q hq => mem_not_mem_foldl st.usrHandlers st.files q hq)]

/-- C7 amended, witness: concrete paths; the binding points at the newest
file, a termination signal empties the disk of both registered files, and
cleaning up an absent file leaves the filesystem unchanged. -/
theorem materialize_lifecycle_witness :
    ("/tmp/kubeconfig-x" ∉ (["/tmp/other-a", "/tmp/other-b"] : List String)) ∧
    (materialize (materialize TempStore.initial "/tmp/kubeconfig-1") "/tmp/kubeconfig-2").KUBECONFIG
      = some "/tmp/kubeconfig-2" ∧
    deliverTermSignal
      (materialize (materialize TempStore.initial "/tmp/kubeconfig-1") "/tmp/kubeconfig-2") = [] ∧
    cleanupTempFile ["/tmp/other-a", "/tmp/other-b"] "/tmp/kubeconfig-x"
      = ["/tmp/other-a", "/tmp/other-b"] := by
  have h := materialize_lifecycle TempStore.initial "/tmp/kubeconfig-1" "/tmp/kubeconfig-2"
    "/tmp/kubeconfig-x" ["/tmp/other-a", "/tmp/other-b"] ["/tmp/other-a"] (by decide)
  exact ⟨by decide, h.1, h.2.2.1, h.2.2.2.2.1⟩

end MCPK8s
